import Mathlib

/-!
Verification of the VAO registry client module (`vaopy/registry/vao.py`).

The module is shallowly embedded: the query builder (`RegistryQuery`), the
service layer (`RegistryService`) and the result parser (`RegistryResults`)
become Lean structures and functions.  Python exceptions become an explicit
error type and fallible operations return `Except`.  The generic base
abstractions (`dalq.DalService`, `dalq.DalQuery`, `dalq.DalResults`,
`dalq.Record`) live in a sibling module that is not part of the sources;
the few behaviours of theirs that matter here (the string-keyed parameter
map, the tabular raw-value lookup, the record bounds check) are modelled
from the specification and are marked as such below.
-/

namespace PyVO

/-- The Python exceptions this module can raise, as an explicit error type.
`valueError` covers both the spec's InvalidArgument (setter validation) and
NotFound (removing an absent keyword/predicate) error kinds; `indexError`
covers IndexOutOfRange; `keyError` covers UnknownColumn. `nameError` is the
exception Python raises when an undefined variable is referenced. -/
inductive PyErr where
  | valueError (msg : String)
  | nameError (name : String)
  | indexError
  | keyError (key : String)
deriving DecidableEq, Repr

/-- A Python value that may sit in the `orKeywords` slot: either an actual
boolean, or (because of the positional-argument slip in
`RegistryService.createQuery`, which calls `RegistryQuery(self._baseurl)`)
a string.  Only its truthiness is ever observed. -/
inductive PyVal where
  | pybool (b : Bool)
  | pystr (s : String)
deriving DecidableEq, Repr

/-- Python truthiness: `False`/`""` are falsy, everything else here truthy. -/
def PyVal.truthy : PyVal → Bool
  | .pybool b => b
  | .pystr s => s != ""

/-- Embedding of Python's `sep.join(list)`. -/
def sjoin (sep : String) : List String → String
  | [] => ""
  | [x] => x
  | x :: y :: rest => x ++ sep ++ sjoin sep (y :: rest)

/-- `RegistryService.STSCI_REGISTRY_BASEURL`. -/
def STSCI_REGISTRY_BASEURL : String :=
  "http://vao.stsci.edu/directory/NVORegInt.asmx/"

/-- `RegistryQuery.SERVICE_NAME`. -/
def SERVICE_NAME : String := "VOTCapBandPredOpt"

/-- `RegistryQuery.RESULTSET_TYPE_ARG`. -/
def RESULTSET_TYPE_ARG : String := "VOTStyleOption=2"

/-- `RegistryQuery.ALLOWED_WAVEBANDS`. -/
def ALLOWED_WAVEBANDS : List String :=
  ["Radio", "Millimeter", "Infrared", "Optical", "UV", "EUV", "X-ray", "Gamma-ray"]

/-- `RegistryQuery.WAVEBAND_SYN`, as an association list. -/
def WAVEBAND_SYN : List (String × String) :=
  [("ir", "Infrared"), ("IR", "Infrared"), ("uv", "UV"), ("euv", "EUV")]

/-- `RegistryQuery.ALLOWED_CAPS`, as an association list. -/
def ALLOWED_CAPS : List (String × String) :=
  [("table", "ConeSearch"),
   ("catalog", "ConeSearch"),
   ("scs", "ConeSearch"),
   ("conesearch", "ConeSearch"),
   ("image", "SimpleImageAccess"),
   ("sia", "SimpleImageAccess"),
   ("spectra", "SimpleSpectralAccess"),
   ("spectrum", "SimpleSpectralAccess"),
   ("ssa", "SimpleSpectralAccess"),
   ("ssap", "SimpleSpectralAccess"),
   ("line", "SimpleLineAccess"),
   ("sla", "SimpleLineAccess"),
   ("slap", "SimpleLineAccess"),
   ("tap", "TableAccess"),
   ("database", "TableAccess"),
   ("tableAccess", "TableAccess"),
   ("simpleImageAccess", "SimpleImageAccess"),
   ("simpleLineAccess", "SimpleLineAccess"),
   ("simpleSpectralAccess", "SimpleSpectralAccess")]

/-- One hex digit, upper case, for percent-encoding. -/
def hexDigit (n : Nat) : Char := "0123456789ABCDEF".data.getD n '0'

/-- The characters `urllib.quote` leaves untouched (Python 2 `always_safe`,
with the default empty `safe` argument used by `quote_plus`). -/
def isAlwaysSafe (c : Char) : Bool :=
  c.isAlpha || c.isDigit || c = '_' || c = '.' || c = '-'

/-- Percent-encode one (ASCII) character. -/
def percentEncode (c : Char) : String :=
  "%" ++ String.mk [hexDigit (c.toNat / 16), hexDigit (c.toNat % 16)]

/-- Embedding of Python 2's `urllib.quote_plus` on ASCII strings: safe
characters pass through, a space becomes `+`, everything else is
percent-encoded. -/
def quote_plus (s : String) : String :=
  String.join (s.data.map fun c =>
    if isAlwaysSafe c then String.mk [c]
    else if c = ' ' then "+" else percentEncode c)

/-- The mutable state of `RegistryQuery`: the keyword list `_kw`, the
predicate list `_preds`, the optional service type `_svctype`, the
OR/AND flag `_orKw` (a `PyVal`, since `createQuery` can put a string
there), and the generic parameter map of the `DalQuery` base class,
modelled as an association list (the iteration order of the underlying
Python dict is unspecified; only one parameter, `waveband`, is ever set
by this module). -/
structure RegistryQuery where
  baseurl : String
  kw : List String
  preds : List String
  svctype : Option String
  orKw : PyVal
  param : List (String × String)
deriving DecidableEq, Repr

/-- Modelled from the spec: `DalQuery.setparam` of the generic base query
abstraction (not under the sources) stores a value in the string-keyed
parameter map, replacing any previous binding of the same name. -/
def RegistryQuery.setparam (q : RegistryQuery) (n v : String) : RegistryQuery :=
  { q with param := (n, v) :: q.param.filter (fun p => p.1 != n) }

/-- Modelled from the spec: `DalQuery.unsetparam` removes a binding. -/
def RegistryQuery.unsetparam (q : RegistryQuery) (n : String) : RegistryQuery :=
  { q with param := q.param.filter (fun p => p.1 != n) }

/-- Modelled from the spec: `DalQuery.getparam` looks a parameter up. -/
def RegistryQuery.getparam (q : RegistryQuery) (n : String) : Option String :=
  q.param.lookup n

/-- `RegistryQuery.__init__(self, orKeywords=True, baseurl=None)`:
a falsy `baseurl` is replaced by the public STScI registry URL. -/
def RegistryQuery.init (orKeywords : PyVal) (baseurl : Option String) : RegistryQuery :=
  let b := match baseurl with
    | none => STSCI_REGISTRY_BASEURL
    | some s => if s = "" then STSCI_REGISTRY_BASEURL else s
  { baseurl := b, kw := [], preds := [], svctype := none,
    orKw := orKeywords, param := [] }

/-- `RegistryQuery.addkeywords` (list form; a single string argument is
wrapped into a one-element list by the Python code). -/
def RegistryQuery.addkeywords (q : RegistryQuery) (keywords : List String) : RegistryQuery :=
  { q with kw := q.kw ++ keywords }

/-- Embedding of Python's `list.remove`: removes the first occurrence,
raises `ValueError` if the element is absent. -/
def listRemove (l : List String) (x : String) : Except PyErr (List String) :=
  if x ∈ l then .ok (l.erase x) else .error (.valueError "list.remove(x): x not in list")

/-- `for kw in keywords: self._kw.remove(kw)`, sequentially.  (In Python an
exception part-way through leaves the earlier removals applied; the claims
below only exercise single-phrase calls, where the two behaviours agree.) -/
def removeAll (kws : List String) (l : List String) : Except PyErr (List String) :=
  match kws with
  | [] => .ok l
  | k :: rest =>
    match listRemove l k with
    | .ok l₂ => removeAll rest l₂
    | .error e => .error e

/-- `RegistryQuery.removekeywords` (list form). -/
def RegistryQuery.removekeywords (q : RegistryQuery) (keywords : List String) :
    Except PyErr RegistryQuery :=
  match removeAll keywords q.kw with
  | .ok l => .ok { q with kw := l }
  | .error e => .error e

/-- `RegistryQuery.clearkeywords`. -/
def RegistryQuery.clearkeywords (q : RegistryQuery) : RegistryQuery :=
  { q with kw := [] }

/-- `RegistryQuery.or_keywords`. -/
def RegistryQuery.or_keywords (q : RegistryQuery) (ored : PyVal) : RegistryQuery :=
  { q with orKw := ored }

/-- `RegistryQuery.addpredicate`. -/
def RegistryQuery.addpredicate (q : RegistryQuery) (pred : String) : RegistryQuery :=
  { q with preds := q.preds ++ [pred] }

/-- `RegistryQuery.removepredicate`. -/
def RegistryQuery.removepredicate (q : RegistryQuery) (pred : String) :
    Except PyErr RegistryQuery :=
  match listRemove q.preds pred with
  | .ok l => .ok { q with preds := l }
  | .error e => .error e

/-- `RegistryQuery.clearpredicates`. -/
def RegistryQuery.clearpredicates (q : RegistryQuery) : RegistryQuery :=
  { q with preds := [] }

/-- Python `val[0].upper() == val[0]` / `val[0].lower() + val[1:]`:
lower-case the first character when it is already in upper case form. -/
def uncapitalize (val : String) : String :=
  match val.data with
  | [] => val
  | c :: rest => if c.toUpper = c then String.mk (c.toLower :: rest) else val

/-- Python `_band[0].upper() + _band[1:]` (callers guarantee a non-empty
argument; on `""` Python would raise IndexError, which is unreachable in
the one call site). -/
def capitalize (s : String) : String :=
  match s.data with
  | [] => s
  | c :: rest => String.mk (c.toUpper :: rest)

/-- The `servicetype` property setter.  Note the faithful rendering of the
length-1 branch: the Python source there is
`raise ValueError("unrecognized serviceType value: " + serviceType)`, and
`serviceType` is an undefined name, so building the message raises
`NameError` before the `ValueError` can be raised. -/
def RegistryQuery.setServicetype (q : RegistryQuery) (val : String) :
    Except PyErr RegistryQuery :=
  if val = "" then .error (.valueError "missing serviceType value")
  else if val.length < 2 then .error (.nameError "serviceType")
  else
    let v := uncapitalize val
    -- `val not in self.ALLOWED_CAPS.keys()`: membership in the key set of
    -- the association list, i.e. a successful lookup.
    if (ALLOWED_CAPS.lookup v).isSome then .ok { q with svctype := some v }
    else .error (.valueError ("unrecognized servicetype value: " ++ v))

/-- The `servicetype` property deleter. -/
def RegistryQuery.delServicetype (q : RegistryQuery) : RegistryQuery :=
  { q with svctype := none }

/-- The `waveband` property setter: `None` unsets the parameter; otherwise
the value is validated (non-empty, length at least 2), passed through the
synonym table, capitalized, checked against the allowed set and stored in
the generic parameter map. -/
def RegistryQuery.setWaveband (q : RegistryQuery) (band : Option String) :
    Except PyErr RegistryQuery :=
  match band with
  | none => .ok (q.unsetparam "waveband")
  | some band =>
    if band = "" then .error (.valueError "missing waveband value")
    else if band.length < 2 then .error (.valueError ("unrecognized waveband: " ++ band))
    else
      let b := match WAVEBAND_SYN.lookup band with
        | some v => v
        | none => band
      let b := capitalize b
      if b ∈ ALLOWED_WAVEBANDS then .ok (q.setparam "waveband" b)
      else .error (.valueError ("unrecognized waveband: " ++ band))

/-- The `waveband` property getter (`self.getparam("waveband")`). -/
def RegistryQuery.getWaveband (q : RegistryQuery) : Option String :=
  q.getparam "waveband"

/-- Modelled from the spec: `DalQuery._paramtostr` of the base abstraction;
per the spec the value needs no escaping beyond what the generic parameter
encoder does, so it is the identity on the plain strings used here. -/
def paramtostr (v : String) : String := v

/-- `RegistryQuery._toCapConst(stype)`, i.e. `self.ALLOWED_CAPS[stype]`.
Python dict indexing raises KeyError on an absent key; `getQueryURL` only
calls this on a value stored by the validated setter, so the key is always
present and the `""` default is unreachable. -/
def toCapConst (stype : String) : String :=
  (ALLOWED_CAPS.lookup stype).getD ""

/-- The fixed `textcols` list of `RegistryQuery.keywords_to_predicate`. -/
def textcols : List String :=
  ["Title", "ShortName", "Identifier",
   "[content/subject]", "[curation/publisher]",
   "[content/description]", "[@xsi_type]",
   "[capability/@xsi_type]"]

/-- The inner loop of `keywords_to_predicate`: the per-keyword `keyconst`
list of substring tests, one per text column, joined with `" OR "`. -/
def likeGroup (kw : String) : String :=
  sjoin " OR " (textcols.map fun col => col ++ " LIKE '%" ++ kw ++ "%'")

/-- `RegistryQuery.keywords_to_predicate`. -/
def keywords_to_predicate (keywords : List String) (ored : Bool) : String :=
  let conjunction := if ored then ") OR (" else ") AND ("
  "(" ++ sjoin conjunction (keywords.map likeGroup) ++ ")"

/-- `RegistryQuery.getQueryURL`. -/
def RegistryQuery.getQueryURL (q : RegistryQuery) : String :=
  let url := q.baseurl ++ SERVICE_NAME ++ "?" ++ RESULTSET_TYPE_ARG
  let url := match q.param with
    | [] => url
    | ps => url ++ "&" ++ sjoin "&" (ps.map fun p => p.1 ++ "=" ++ paramtostr p.2)
  let url := match q.svctype with
    | some st => url ++ ("&capability=" ++ toCapConst st)
    | none => url ++ "&capability="
  let preds := q.preds ++ (match q.kw with
    | [] => []
    | kws => [keywords_to_predicate kws q.orKw.truthy])
  match preds with
  | [] => url ++ "&predicate=1"
  | ps => url ++ ("&predicate=" ++ quote_plus (sjoin " AND " (ps.map fun p => "(" ++ p ++ ")")))

/-- Modelled from the spec: the generic tabular response the VOTable
collaborator produces — rows of named, string-typed cells. -/
structure Table where
  rows : List (List (String × String))
deriving DecidableEq, Repr

/-- Modelled from the spec: `DalResults.getvalue` of the generic base
abstraction — the raw cell lookup, failing with IndexOutOfRange
(`IndexError`) when the row index is out of range and with UnknownColumn
(`KeyError`) when the column is absent. -/
def dalGetvalue (t : Table) (name : String) (index : Nat) : Except PyErr String :=
  match t.rows.get? index with
  | none => .error .indexError
  | some row =>
    match row.lookup name with
    | none => .error (.keyError name)
    | some v => .ok v

/-- `RegistryResults._strarraycols`. -/
def strarraycols : List String := ["waveband", "subject", "type", "contentLevel"]

/-- Embedding of Python's `str.split(sep)` for a one-character separator,
on the character list of the string: `"".split(c)` is `[""]`, and each
occurrence of the separator starts a new field. -/
def splitOnChar (delim : Char) : List Char → List String
  | [] => [""]
  | c :: rest =>
    let r := splitOnChar delim rest
    if c = delim then "" :: r
    else
      match r with
      | [] => [String.mk [c]]
      | s :: tail => String.mk (c :: s.data) :: tail

/-- The multi-valued-cell decoding step of `RegistryResults.getvalue`, on
the character list of the cell: `if out[0] == '#': out = out[1:]`,
`if out[-1] == '#': out = out[:-1]`, `tuple(out.split('#'))`.  Each Python
subscript is rendered faithfully, including the `IndexError` it raises on
an empty string. -/
def decodeChars : List Char → Except PyErr (List String)
  | [] => .error .indexError
  | c :: rest =>
    let o₁ : List Char := if c = '#' then rest else c :: rest
    match o₁.getLast? with
    | none => .error .indexError
    | some l =>
      let o₂ := if l = '#' then o₁.dropLast else o₁
      .ok (splitOnChar '#' o₂)

/-- The decoding step of `RegistryResults.getvalue` on the cell string. -/
def decodeStrArray (out : String) : Except PyErr (List String) :=
  decodeChars out.data

/-- Written from the spec's words, for comparison with `decodeStrArray`:
strip a leading and a trailing delimiter character if present, then split
the remainder on the delimiter. -/
def decodeSpec (s : String) : List String :=
  let l := s.data
  let l₁ := if l.head? = some '#' then l.tail else l
  let l₂ := if l₁.getLast? = some '#' then l₁.dropLast else l₁
  splitOnChar '#' l₂

/-- The result of `getvalue`: either a raw string cell or, for the columns
in `strarraycols`, a decoded sequence of strings. -/
inductive CellValue where
  | str (s : String)
  | strs (l : List String)
deriving DecidableEq, Repr

/-- A `RegistryResults` instance: the parsed VOTable plus the URL used. -/
structure RegistryResults where
  votable : Table
  url : String
deriving DecidableEq, Repr

/-- `RegistryResults.getvalue`: the raw lookup through the base class,
then the multi-valued decoding for the columns in `_strarraycols`. -/
def RegistryResults.getvalue (r : RegistryResults) (name : String) (index : Nat) :
    Except PyErr CellValue := do
  let out ← dalGetvalue r.votable name index
  if name ∈ strarraycols then (decodeStrArray out).map .strs
  else pure (.str out)

/-- A `SimpleResource` record view, bound to a result set and an index. -/
structure SimpleResource where
  results : RegistryResults
  index : Nat
deriving DecidableEq, Repr

/-- `RegistryResults.getrecord` builds the record view; modelled from the
spec for the bounds behaviour of the base `Record` constructor: an index
at or beyond the row count fails with IndexOutOfRange. -/
def RegistryResults.getrecord (r : RegistryResults) (index : Nat) :
    Except PyErr SimpleResource :=
  if index < r.votable.rows.length then .ok ⟨r, index⟩ else .error .indexError

/-- `RegistryQuery.execute`, with the HTTP transport and VOTable parsing
collaborators abstracted into a `fetch` function from the query URL to the
parsed table. -/
def RegistryQuery.execute (q : RegistryQuery) (fetch : String → Table) : RegistryResults :=
  { votable := fetch q.getQueryURL, url := q.getQueryURL }

/-- The `RegistryService` state: the slash-terminated base URL kept by the
`DalService` base class. -/
structure RegistryService where
  baseurl : String
deriving DecidableEq, Repr

/-- `RegistryService.__init__`: a falsy base URL defaults to the public
STScI registry endpoint, and a missing trailing slash is appended. -/
def RegistryService.init (baseurl : Option String) : RegistryService :=
  let b := match baseurl with
    | none => STSCI_REGISTRY_BASEURL
    | some s => if s = "" then STSCI_REGISTRY_BASEURL else s
  { baseurl := if b.data.getLast? = some '/' then b else b ++ "/" }

/-- `RegistryService.createQuery`.  The source line `srch =
RegistryQuery(self._baseurl)` passes the service base URL positionally
into the `orKeywords` parameter of `RegistryQuery.__init__`, leaving the
`baseurl` parameter at its `None` default; the embedding renders that call
as written.  The remaining guards are Python truthiness tests on the four
optional arguments. -/
def RegistryService.createQuery (svc : RegistryService) (keywords : List String)
    (servicetype : Option String) (waveband : Option String) (sqlpred : Option String) :
    Except PyErr RegistryQuery := do
  let srch := RegistryQuery.init (PyVal.pystr svc.baseurl) none
  let srch := match sqlpred with
    | some p => if p = "" then srch else srch.addpredicate p
    | none => srch
  let srch ← match waveband with
    | some b => if b = "" then pure srch else srch.setWaveband (some b)
    | none => pure srch
  let srch ← match servicetype with
    | some v => if v = "" then pure srch else srch.setServicetype v
    | none => pure srch
  let srch := match keywords with
    | [] => srch
    | kws => srch.addkeywords kws
  pure srch

/-- `RegistryService.search`. -/
def RegistryService.search (svc : RegistryService) (fetch : String → Table)
    (keywords : List String) (servicetype : Option String) (waveband : Option String)
    (sqlpred : Option String) : Except PyErr RegistryResults := do
  let srch ← svc.createQuery keywords servicetype waveband sqlpred
  pure (srch.execute fetch)

/-- `RegistryService.resolve`: create an empty query, add the predicate
`Identifier='<ivoid>'`, execute, and return the record at index 0.  The
source spells the two calls `addPredicate` and `getRecord`; the spec
describes them as the predicate-adding and record-building operations
rendered here by `addpredicate` and `getrecord`. -/
def RegistryService.resolve (svc : RegistryService) (fetch : String → Table)
    (ivoid : String) : Except PyErr SimpleResource := do
  let srch ← svc.createQuery [] none none none
  let srch := srch.addpredicate ("Identifier='" ++ ivoid ++ "'")
  let res := srch.execute fetch
  res.getrecord 0

/-- `regsearch`, the module-level convenience function. -/
def regsearch (fetch : String → Table) (keywords : List String)
    (servicetype : Option String) (waveband : Option String) (sqlpred : Option String) :
    Except PyErr RegistryResults :=
  (RegistryService.init none).search fetch keywords servicetype waveband sqlpred

/-- Written from the spec's words, for comparison with
`keywords_to_predicate`: each keyword yields one parenthesized group of
per-column `LIKE` tests joined by `OR`, and the groups are joined by
`OR` or `AND` according to the flag. -/
def keywordPredicateSpec (keywords : List String) (ored : Bool) : String :=
  sjoin (if ored then " OR " else " AND ")
    (keywords.map fun kw => "(" ++ likeGroup kw ++ ")")

/-- A one-row table with a multi-valued `waveband` cell and a plain
`title` cell, used to evaluate the decoding claims. -/
def sampleTable : Table :=
  ⟨[[("waveband", "#Optical#Infrared#"), ("title", "An Optical Survey")]]⟩

/-- A one-row table whose `subject` cell is the empty string. -/
def emptyCellTable : Table :=
  ⟨[[("subject", "")]]⟩

/-- A one-row table whose `waveband` cell is the bare delimiter `"#"`. -/
def hashCellTable : Table :=
  ⟨[[("waveband", "#")]]⟩

/-! ### Helper lemmas -/

theorem str_assoc (a b c : String) : a ++ b ++ c = a ++ (b ++ c) := by
  apply String.ext
  simp [String.data_append, List.append_assoc]

theorem getparam_setparam (q : RegistryQuery) (n v : String) :
    (q.setparam n v).getparam n = some v := by
  simp [RegistryQuery.setparam, RegistryQuery.getparam, List.lookup]

theorem sjoin_paren (mid : String) :
    ∀ xs : List String, xs ≠ [] →
      "(" ++ sjoin (")" ++ mid ++ "(") xs ++ ")" =
        sjoin mid (xs.map fun x => "(" ++ x ++ ")")
  | [], h => absurd rfl h
  | [x], _ => rfl
  | x :: y :: rest, _ => by
    have ih := sjoin_paren mid (y :: rest) (by simp)
    simp only [sjoin, List.map_cons] at ih ⊢
    rw [← ih]
    apply String.ext
    simp [String.data_append, List.append_assoc]

theorem decodeChars_eq_spec_chars :
    ∀ l : List Char, l ≠ [] → l ≠ ['#'] →
      decodeChars l =
        .ok (let l₁ := if l.head? = some '#' then l.tail else l
             let l₂ := if l₁.getLast? = some '#' then l₁.dropLast else l₁
             splitOnChar '#' l₂) := by
  intro l h1 h2
  match l with
  | [] => exact absurd rfl h1
  | c :: rest =>
    by_cases hc : c = '#'
    · subst hc
      match rest with
      | [] => exact absurd rfl h2
      | d :: rest₂ =>
        cases hgl : (d :: rest₂).getLast? with
        | none => simp at hgl
        | some x =>
          by_cases hx : x = '#' <;>
            simp [decodeChars, hgl, hx]
    · cases hgl : (c :: rest).getLast? with
      | none => simp at hgl
      | some x =>
        by_cases hx : x = '#' <;>
          simp [decodeChars, hgl, hx, hc]

theorem decodeStrArray_eq_spec (s : String) (h1 : s ≠ "") (h2 : s ≠ "#") :
    decodeStrArray s = .ok (decodeSpec s) := by
  have hd1 : s.data ≠ [] := by
    intro h
    exact h1 (String.ext h)
  have hd2 : s.data ≠ ['#'] := by
    intro h
    exact h2 (String.ext h)
  simpa [decodeStrArray, decodeSpec] using decodeChars_eq_spec_chars s.data hd1 hd2

/-! ### Claim theorems -/

/-- C2: `RegistryService.createQuery` is claimed to produce queries whose
rendered URL begins with the service's slash-terminated base URL.  The code
violates this: `createQuery` passes `self._baseurl` positionally into the
`orKeywords` parameter of `RegistryQuery.__init__`, so the query's base URL
is always the default STScI endpoint.  Evaluated here at a service
constructed with base URL `http://example.org/registry/`: the rendered URL
of the query it creates does not begin with that base URL, but with the
default one. -/
theorem createQuery_drops_service_baseurl :
    ∃ q : RegistryQuery,
      (RegistryService.init (some "http://example.org/registry/")).createQuery
          [] none none none = .ok q ∧
      q.getQueryURL =
        "http://vao.stsci.edu/directory/NVORegInt.asmx/VOTCapBandPredOpt?VOTStyleOption=2&capability=&predicate=1" ∧
      "http://example.org/registry/".data.isPrefixOf q.getQueryURL.data = false ∧
      STSCI_REGISTRY_BASEURL.data.isPrefixOf q.getQueryURL.data = true := by
  refine ⟨RegistryQuery.init (.pystr "http://example.org/registry/") none, rfl, rfl, ?_, ?_⟩ <;> decide

/-- C3: the setters are claimed to fail with InvalidArgument (`ValueError`)
on every invalid input.  For a length-1 service-type string the code
instead raises `NameError`: the raise statement is
`raise ValueError("unrecognized serviceType value: " + serviceType)` and
`serviceType` is an undefined name, so evaluating the message fails first.
(The stored value is unchanged on every failing path, as claimed.) -/
theorem servicetype_short_input_nameError (q : RegistryQuery) :
    q.setServicetype "x" = .error (.nameError "serviceType") := rfl

/-- C9 counterexample: adding the phrase `"x"` to the keyword list
`["x", "a"]` and then removing it does not restore the prior list —
`list.remove` drops the first occurrence, so the list becomes
`["a", "x"]`. -/
theorem keyword_roundtrip_counterexample :
    ((((RegistryQuery.init (.pybool true) none).addkeywords
        ["x", "a"]).addkeywords ["x"]).removekeywords ["x"]).map RegistryQuery.kw =
      .ok ["a", "x"] ∧
    (((RegistryQuery.init (.pybool true) none).addkeywords ["x", "a"]).kw = ["x", "a"]) ∧
    (["a", "x"] : List String) ≠ ["x", "a"] :=
  ⟨rfl, rfl, by decide⟩

/-- C9, amended: adding a keyword phrase and then removing it restores the
keyword list to its prior state whenever the phrase was not already
present (removal drops the first occurrence, so with duplicates only the
multiset is restored); and removing a phrase that is absent fails with the
NotFound error (the `ValueError` raised by `list.remove`). -/
theorem keyword_roundtrip_amended :
    (∀ (q : RegistryQuery) (kw : String), kw ∉ q.kw →
      (q.addkeywords [kw]).removekeywords [kw] = .ok q) ∧
    (∀ (q : RegistryQuery) (kw : String), kw ∉ q.kw →
      q.removekeywords [kw] = .error (.valueError "list.remove(x): x not in list")) := by
  constructor
  · intro q kw h
    have hmem : kw ∈ q.kw ++ [kw] := List.mem_append_right _ (List.mem_singleton.mpr rfl)
    have herase : (q.kw ++ [kw]).erase kw = q.kw := by
      rw [List.erase_append_right _ h, List.erase_cons_head, List.append_nil]
    simp [RegistryQuery.addkeywords, RegistryQuery.removekeywords, removeAll,
      listRemove, hmem, herase]
  · intro q kw h
    simp [RegistryQuery.removekeywords, removeAll, listRemove, h]

theorem keyword_roundtrip_amended_witness :
    (((RegistryQuery.init (.pybool true) none).addkeywords ["a"]).addkeywords
        ["x"]).removekeywords ["x"] =
      .ok ((RegistryQuery.init (.pybool true) none).addkeywords ["a"]) ∧
    ((RegistryQuery.init (.pybool true) none).addkeywords ["a"]).removekeywords ["z"] =
      .error (.valueError "list.remove(x): x not in list") :=
  ⟨keyword_roundtrip_amended.1 _ "x" (by decide),
   keyword_roundtrip_amended.2 _ "z" (by decide)⟩

/-- C10: on a column of the multi-valued set, an empty cell makes the
decoding step fail with `IndexError` (the unconditional `out[0]`
subscript), rather than return an empty sequence. -/
theorem getvalue_empty_cell_indexerror (r : RegistryResults) (name : String) (idx : Nat)
    (h1 : name ∈ strarraycols) (h2 : dalGetvalue r.votable name idx = .ok "") :
    r.getvalue name idx = .error .indexError := by
  simp [RegistryResults.getvalue, h2, h1, Except.bind, bind,
    show decodeStrArray "" = .error .indexError from rfl, Except.map]

theorem getvalue_empty_cell_indexerror_witness :
    RegistryResults.getvalue ⟨emptyCellTable, ""⟩ "subject" 0 = .error .indexError :=
  getvalue_empty_cell_indexerror ⟨emptyCellTable, ""⟩ "subject" 0 (by decide) rfl

/-- C7 counterexample: on a multi-valued column whose cell is the bare
delimiter `"#"`, the code raises `IndexError` (the cell `"#"` is stripped
to `""` by the first subscript test and the unconditional `out[-1]` then
fails), whereas the claimed strip-and-split decoding of `"#"` is the
one-element sequence `("",)`, as `decodeSpec` (written from the spec's
words) shows. -/
theorem getvalue_hash_cell_counterexample :
    RegistryResults.getvalue ⟨hashCellTable, ""⟩ "waveband" 0 = .error .indexError ∧
    decodeSpec "#" = [""] :=
  ⟨rfl, rfl⟩

/-- C7, amended: on a column of the multi-valued set, `getvalue` strips a
leading and a trailing `#` if present and splits the remainder on `#`
(stated via `decodeSpec`, written from the spec's words) — provided the
cell is neither `""` nor `"#"`; on those two cells the unconditional
first/last subscripts of the decoder raise `IndexError` instead.  On any
column outside the set it returns the raw cell value unchanged. -/
theorem getvalue_multivalued_decode (r : RegistryResults) (name : String) (idx : Nat)
    (cell : String) (h : dalGetvalue r.votable name idx = .ok cell) :
    (name ∈ strarraycols → cell ≠ "" → cell ≠ "#" →
      r.getvalue name idx = .ok (.strs (decodeSpec cell))) ∧
    (name ∈ strarraycols → (cell = "" ∨ cell = "#") →
      r.getvalue name idx = .error .indexError) ∧
    (name ∉ strarraycols → r.getvalue name idx = .ok (.str cell)) := by
  refine ⟨?_, ?_, ?_⟩
  · intro hmem h1 h2
    simp [RegistryResults.getvalue, h, hmem, Except.bind, bind,
      decodeStrArray_eq_spec cell h1 h2, Except.map]
  · intro hmem hc
    rcases hc with rfl | rfl
    · simp [RegistryResults.getvalue, h, hmem, Except.bind, bind,
        show decodeStrArray "" = .error .indexError from rfl, Except.map]
    · simp [RegistryResults.getvalue, h, hmem, Except.bind, bind,
        show decodeStrArray "#" = .error .indexError from rfl, Except.map]
  · intro hmem
    simp [RegistryResults.getvalue, h, hmem, Except.bind, bind, pure, Except.pure]

theorem getvalue_multivalued_decode_witness :
    RegistryResults.getvalue ⟨sampleTable, ""⟩ "waveband" 0 =
      .ok (.strs ["Optical", "Infrared"]) ∧
    RegistryResults.getvalue ⟨sampleTable, ""⟩ "title" 0 =
      .ok (.str "An Optical Survey") := by
  have h1 := (getvalue_multivalued_decode ⟨sampleTable, ""⟩ "waveband" 0
    "#Optical#Infrared#" rfl).1 (by decide) (by decide) (by decide)
  have h2 := (getvalue_multivalued_decode ⟨sampleTable, ""⟩ "title" 0
    "An Optical Survey" rfl).2.2 (by decide)
  exact ⟨by rw [h1]; rfl, h2⟩

/-- C1: `RegistryService.resolve` builds a query whose predicate list is
exactly `[Identifier='<ivoid>']`, executes it (through the abstracted
`fetch` collaborator), and returns the record at index 0 of the result
set; when the result set has no rows it fails with the index error. -/
theorem resolve_issues_identifier_query (svc : RegistryService)
    (fetch : String → Table) (ivoid : String) :
    ∃ q : RegistryQuery,
      q.preds = ["Identifier='" ++ ivoid ++ "'"] ∧
      svc.resolve fetch ivoid = (q.execute fetch).getrecord 0 ∧
      ((fetch q.getQueryURL).rows = [] →
        svc.resolve fetch ivoid = .error .indexError) := by
  refine ⟨(RegistryQuery.init (.pystr svc.baseurl) none).addpredicate
    ("Identifier='" ++ ivoid ++ "'"), rfl, rfl, ?_⟩
  intro hrows
  simp [RegistryService.resolve, RegistryService.createQuery, RegistryQuery.execute,
    RegistryResults.getrecord, hrows, Except.bind, bind, pure, Except.pure]

theorem resolve_issues_identifier_query_witness :
    (RegistryService.init none).resolve (fun _ => ⟨[]⟩) "ivo://nowhere" =
      .error .indexError := by
  obtain ⟨q, h1, h2, h3⟩ :=
    resolve_issues_identifier_query (RegistryService.init none) (fun _ => ⟨[]⟩) "ivo://nowhere"
  exact h3 rfl

/-- C8: a query with no keywords, no predicates, no service type and no
parameters (hence no waveband) renders a URL of the form
`<prefix>&capability=&predicate=1`: it ends with `&predicate=1` and its
`capability` parameter is empty. -/
theorem empty_query_url (q : RegistryQuery) (h1 : q.kw = []) (h2 : q.preds = [])
    (h3 : q.svctype = none) (h4 : q.param = []) :
    ∃ A, q.getQueryURL = A ++ "&capability=&predicate=1" := by
  refine ⟨q.baseurl ++ SERVICE_NAME ++ "?" ++ RESULTSET_TYPE_ARG, ?_⟩
  simp only [RegistryQuery.getQueryURL, h1, h2, h3, h4, List.nil_append]
  rw [str_assoc]
  rfl

theorem empty_query_url_witness :
    ∃ A, (RegistryQuery.init (.pybool true) none).getQueryURL =
      A ++ "&capability=&predicate=1" :=
  empty_query_url (RegistryQuery.init (.pybool true) none) rfl rfl rfl rfl

/-- C4: whenever the waveband setter succeeds the stored value is a member
of the canonical waveband set; whenever the service-type setter succeeds
the stored value is a key of the fixed capability table (the
case-normalized vocabulary); and every input in the waveband synonym
table is accepted and stored as its canonical capitalized form. -/
theorem waveband_servicetype_canonical_invariant :
    (∀ (q : RegistryQuery) (b : String) (q' : RegistryQuery),
      q.setWaveband (some b) = .ok q' →
      ∃ w, q'.getWaveband = some w ∧ w ∈ ALLOWED_WAVEBANDS) ∧
    (∀ (q : RegistryQuery) (v : String) (q' : RegistryQuery),
      q.setServicetype v = .ok q' →
      ∃ s, q'.svctype = some s ∧ (ALLOWED_CAPS.lookup s).isSome) ∧
    (∀ (q : RegistryQuery) (p : String × String), p ∈ WAVEBAND_SYN →
      ∃ q', q.setWaveband (some p.1) = .ok q' ∧ q'.getWaveband = some p.2) := by
  refine ⟨?_, ?_, ?_⟩
  · intro q b q' h
    simp only [RegistryQuery.setWaveband] at h
    split_ifs at h with h1 h2 h3
    all_goals first
      | exact Except.noConfusion h
      | (injection h with h'
         subst h'
         exact ⟨_, getparam_setparam q "waveband" _, h3⟩)
  · intro q v q' h
    simp only [RegistryQuery.setServicetype] at h
    split_ifs at h with h1 h2 h3
    all_goals first
      | exact Except.noConfusion h
      | (injection h with h'
         subst h'
         exact ⟨uncapitalize v, rfl, h3⟩)
  · intro q p hp
    simp only [WAVEBAND_SYN, List.mem_cons, List.not_mem_nil, or_false] at hp
    rcases hp with rfl | rfl | rfl | rfl
    · exact ⟨q.setparam "waveband" "Infrared", rfl, getparam_setparam q "waveband" "Infrared"⟩
    · exact ⟨q.setparam "waveband" "Infrared", rfl, getparam_setparam q "waveband" "Infrared"⟩
    · exact ⟨q.setparam "waveband" "UV", rfl, getparam_setparam q "waveband" "UV"⟩
    · exact ⟨q.setparam "waveband" "EUV", rfl, getparam_setparam q "waveband" "EUV"⟩

theorem waveband_servicetype_canonical_invariant_witness :
    ∃ q', (RegistryQuery.init (.pybool true) none).setWaveband (some "ir") = .ok q' ∧
      q'.getWaveband = some "Infrared" :=
  waveband_servicetype_canonical_invariant.2.2 (RegistryQuery.init (.pybool true) none)
    ("ir", "Infrared") (by decide)

/-- C5: after the service type is successfully set, the rendered URL
contains the segment `&capability=` followed by the canonical capability
name that the synonym table assigns to the stored service type; for the
input `"scs"` that canonical name is `ConeSearch`. -/
theorem capability_param_canonical (q : RegistryQuery) (v : String) (q' : RegistryQuery)
    (h : q.setServicetype v = .ok q') :
    ∃ s cap, q'.svctype = some s ∧ ALLOWED_CAPS.lookup s = some cap ∧
      (v = "scs" → cap = "ConeSearch") ∧
      ∃ pre post, q'.getQueryURL = pre ++ ("&capability=" ++ cap) ++ post := by
  simp only [RegistryQuery.setServicetype] at h
  split_ifs at h with h1 h2 h3
  all_goals first
    | exact Except.noConfusion h
    | (injection h with h'
       subst h'
       obtain ⟨cap, hcap⟩ := Option.isSome_iff_exists.mp h3
       refine ⟨uncapitalize v, cap, rfl, hcap, ?_, ?_⟩
       · intro hv
         subst hv
         have hux : ALLOWED_CAPS.lookup (uncapitalize "scs") = some "ConeSearch" := rfl
         rw [hux] at hcap
         exact (Option.some.inj hcap).symm
       · simp only [RegistryQuery.getQueryURL, toCapConst, hcap, Option.getD_some]
         split
         · exact ⟨_, _, rfl⟩
         · exact ⟨_, _, rfl⟩)

theorem capability_param_canonical_witness :
    ∃ s cap,
      ({ baseurl := STSCI_REGISTRY_BASEURL, kw := [], preds := [], svctype := some "scs",
         orKw := PyVal.pybool true, param := [] } : RegistryQuery).svctype = some s ∧
      ALLOWED_CAPS.lookup s = some cap ∧
      (("scs" : String) = "scs" → cap = "ConeSearch") ∧
      ∃ pre post,
        ({ baseurl := STSCI_REGISTRY_BASEURL, kw := [], preds := [], svctype := some "scs",
           orKw := PyVal.pybool true, param := [] } : RegistryQuery).getQueryURL =
          pre ++ ("&capability=" ++ cap) ++ post :=
  capability_param_canonical (RegistryQuery.init (.pybool true) none) "scs"
    { baseurl := STSCI_REGISTRY_BASEURL, kw := [], preds := [], svctype := some "scs",
      orKw := PyVal.pybool true, param := [] } rfl

set_option maxRecDepth 8192 in
/-- C6: on every non-empty keyword list, `keywords_to_predicate` equals
the spec-shaped predicate (`keywordPredicateSpec`): one parenthesized
per-keyword group of per-column `LIKE` tests joined by `OR`, groups joined
by `OR` in OR mode and `AND` otherwise.  Evaluated at `["blue",
"compact"]` in both modes, and: when a query has keywords and no explicit
predicates, the rendered URL carries the URL-encoded keyword predicate
wrapped in one more pair of parentheses — for the example this is the
`((...) OR (...))` form. -/
theorem keywords_predicate_shape :
    (∀ (kws : List String) (ored : Bool), kws ≠ [] →
      keywords_to_predicate kws ored = keywordPredicateSpec kws ored) ∧
    keywords_to_predicate ["blue", "compact"] true =
      "(Title LIKE '%blue%' OR ShortName LIKE '%blue%' OR Identifier LIKE '%blue%' OR [content/subject] LIKE '%blue%' OR [curation/publisher] LIKE '%blue%' OR [content/description] LIKE '%blue%' OR [@xsi_type] LIKE '%blue%' OR [capability/@xsi_type] LIKE '%blue%') OR (Title LIKE '%compact%' OR ShortName LIKE '%compact%' OR Identifier LIKE '%compact%' OR [content/subject] LIKE '%compact%' OR [curation/publisher] LIKE '%compact%' OR [content/description] LIKE '%compact%' OR [@xsi_type] LIKE '%compact%' OR [capability/@xsi_type] LIKE '%compact%')" ∧
    keywords_to_predicate ["blue", "compact"] false =
      "(Title LIKE '%blue%' OR ShortName LIKE '%blue%' OR Identifier LIKE '%blue%' OR [content/subject] LIKE '%blue%' OR [curation/publisher] LIKE '%blue%' OR [content/description] LIKE '%blue%' OR [@xsi_type] LIKE '%blue%' OR [capability/@xsi_type] LIKE '%blue%') AND (Title LIKE '%compact%' OR ShortName LIKE '%compact%' OR Identifier LIKE '%compact%' OR [content/subject] LIKE '%compact%' OR [curation/publisher] LIKE '%compact%' OR [content/description] LIKE '%compact%' OR [@xsi_type] LIKE '%compact%' OR [capability/@xsi_type] LIKE '%compact%')" ∧
    (∀ q : RegistryQuery, q.kw ≠ [] → q.preds = [] →
      ∃ A, q.getQueryURL =
        A ++ ("&predicate=" ++ quote_plus ("(" ++ keywords_to_predicate q.kw q.orKw.truthy ++ ")"))) := by
  refine ⟨?_, rfl, rfl, ?_⟩
  · intro kws ored h
    have hmap : kws.map likeGroup ≠ [] := by simpa using h
    cases ored
    · simp only [keywords_to_predicate, keywordPredicateSpec, Bool.false_eq_true,
        if_false]
      rw [show (") AND (" : String) = ")" ++ " AND " ++ "(" from rfl,
        sjoin_paren " AND " (kws.map likeGroup) hmap, List.map_map]
      rfl
    · simp only [keywords_to_predicate, keywordPredicateSpec, if_true]
      rw [show (") OR (" : String) = ")" ++ " OR " ++ "(" from rfl,
        sjoin_paren " OR " (kws.map likeGroup) hmap, List.map_map]
      rfl
  · intro q h1 h2
    simp only [RegistryQuery.getQueryURL, h2, List.nil_append]
    cases hkw : q.kw with
    | nil => exact absurd hkw h1
    | cons a as =>
      simp only [List.map_cons, List.map_nil, sjoin]
      exact ⟨_, rfl⟩

theorem keywords_predicate_shape_witness :
    keywords_to_predicate ["blue"] true = keywordPredicateSpec ["blue"] true ∧
    ∃ A, ((RegistryQuery.init (.pybool true) none).addkeywords ["blue"]).getQueryURL =
      A ++ ("&predicate=" ++ quote_plus ("(" ++
        keywords_to_predicate ((RegistryQuery.init (.pybool true) none).addkeywords
          ["blue"]).kw ((RegistryQuery.init (.pybool true)
            none).addkeywords ["blue"]).orKw.truthy ++ ")")) :=
  ⟨keywords_predicate_shape.1 ["blue"] true (by decide),
   keywords_predicate_shape.2.2.2 ((RegistryQuery.init (.pybool true) none).addkeywords
     ["blue"]) (by decide) rfl⟩

end PyVO
